import Mathlib

/-!
Verification of the data-parsing-and-regression core of the Graphyscs app
(`src/app.py`).  The core lives inside the function `plot_data` (lines
105-178) and the `plot_button` handler (lines 184-194).  Numbers are
modelled as exact rationals (`ℚ`); Python floats are IEEE doubles, so the
model is exact arithmetic where the program is approximate.  String
operations (`str.split`, `str.strip`, `in`, `f"..."` interpolation) are
modelled by structurally recursive functions over `List Char`.
-/

namespace Graphyscs

/-- Python `str.strip()` on the characters of a token: drop whitespace from
both ends (modelled with `Char.isWhitespace`, covering the ASCII whitespace
that the app's numeric tokens can contain). -/
def stripChars (cs : List Char) : List Char :=
  ((cs.dropWhile Char.isWhitespace).reverse.dropWhile Char.isWhitespace).reverse

/-- Python `s.strip()` as a `String` operation. -/
def pyStrip (s : String) : String :=
  (stripChars s.data).asString

/-- Split a character list at every occurrence of `sep`, keeping empty
pieces, as Python `str.split(sep)` does for a one-character separator. -/
def splitCharAux (sep : Char) : List Char → List Char → List (List Char)
  | [], acc => [acc.reverse]
  | c :: cs, acc =>
    if c = sep then acc.reverse :: splitCharAux sep cs []
    else splitCharAux sep cs (c :: acc)

/-- Python `s.split(sep)` for a one-character separator. -/
def splitChar (sep : Char) (cs : List Char) : List (List Char) :=
  splitCharAux sep cs []

/-- The comma-separated tokens of an input string after stripping, with
empty tokens discarded: `[val.strip() for val in s.split(',') if val.strip()]`
(src/app.py lines 109-110, the token part of the comprehension). -/
def splitTokens (s : String) : List String :=
  (((splitChar ',' s.data).map (fun t => (stripChars t).asString)).filter
    (fun t => t ≠ ""))

/-- Numeric value of a digit string, most significant first (`0` on `[]`). -/
def natOfDigits (cs : List Char) : Nat :=
  cs.foldl (fun a c => a * 10 + (c.toNat - 48)) 0

/-- All characters are decimal digits. -/
def allDigits (cs : List Char) : Bool :=
  cs.all Char.isDigit

/-- A nonempty all-digit string, or failure. -/
def digitsVal (cs : List Char) : Option Nat :=
  if cs.isEmpty then none
  else if allDigits cs then some (natOfDigits cs) else none

/-- Strip one optional leading sign, returning the sign as `1` or `-1`. -/
def splitSign : List Char → Int × List Char
  | '+' :: cs => (1, cs)
  | '-' :: cs => (-1, cs)
  | cs => (1, cs)

/-- The mantissa part of a Python float literal: an optional sign followed
by `digits`, `digits.digits?`, or `.digits`. -/
def parseMantissa (cs : List Char) : Option ℚ :=
  let p := splitSign cs
  match splitChar '.' p.2 with
  | [ip] =>
    match digitsVal ip with
    | some v => some ((p.1 : ℚ) * (v : ℚ))
    | none => none
  | [ip, fp] =>
    if ip.isEmpty && fp.isEmpty then none
    else if allDigits ip && allDigits fp then
      some ((p.1 : ℚ) * ((natOfDigits ip : ℚ) + (natOfDigits fp : ℚ) / (10 : ℚ) ^ fp.length))
    else none
  | _ => none

/-- Modelled from the spec: Python's built-in `float(token)` conversion used
at src/app.py lines 109-110 (its implementation is not part of this
repository).  It accepts a finite decimal literal — optional sign, integer
and/or fractional digits, optional `e`/`E` exponent — and yields its exact
rational value; anything else (the spec's "not a valid number") fails.
Non-finite spellings (`inf`, `nan`) and digit underscores are not modelled:
no claim depends on them. -/
def parseFloat? (s : String) : Option ℚ :=
  let cs := (stripChars s.data).map (fun c => if c = 'E' then 'e' else c)
  match splitChar 'e' cs with
  | [m] => parseMantissa m
  | [m, ex] =>
    let p := splitSign ex
    match parseMantissa m, digitsVal p.2 with
    | some mv, some ev => some (mv * (10 : ℚ) ^ (p.1 * (ev : Int)))
    | _, _ => none
  | _ => none

/-- Sequential conversion of a token list, failing on the first bad token,
as the Python list comprehension raises `ValueError` on the first token
`float` rejects. -/
def parseList : List String → Option (List ℚ)
  | [] => some []
  | t :: ts =>
    match parseFloat? t, parseList ts with
    | some v, some vs => some (v :: vs)
    | _, _ => none

/-- One series: `[float(val.strip()) for val in s.split(',') if val.strip()]`
(src/app.py lines 109-110). -/
def parseSeries (s : String) : Option (List ℚ) :=
  parseList (splitTokens s)

/-- The spec's `ParseError` taxonomy (§7). -/
inductive ParseError
  | nonNumeric
  | empty
  | lengthMismatch
deriving DecidableEq, Repr

instance {ε α : Type} [DecidableEq ε] [DecidableEq α] :
    DecidableEq (Except ε α) := fun a b =>
  match a, b with
  | .error e₁, .error e₂ =>
    if h : e₁ = e₂ then .isTrue (by rw [h]) else .isFalse (by simp [h])
  | .error _, .ok _ => .isFalse (by simp)
  | .ok _, .error _ => .isFalse (by simp)
  | .ok v₁, .ok v₂ =>
    if h : v₁ = v₂ then .isTrue (by rw [h]) else .isFalse (by simp [h])

/-- The Parser/Validator (spec §4.1), embedded from src/app.py lines
107-119 and 176-178: convert both strings (a `ValueError` from `float`
is caught as the non-numeric error), then check nonemptiness, then check
equal lengths. -/
def parse (x_str y_str : String) : Except ParseError (List ℚ × List ℚ) :=
  match parseSeries x_str with
  | none => .error .nonNumeric
  | some xv =>
    match parseSeries y_str with
    | none => .error .nonNumeric
    | some yv =>
      if xv.isEmpty || yv.isEmpty then .error .empty
      else if xv.length ≠ yv.length then .error .lengthMismatch
      else .ok (xv, yv)

example : parseSeries "1, 2, 3, 4, 5" = some [1, 2, 3, 4, 5] := by
  with_unfolding_all decide
example : parseSeries "1,a,3" = none := by with_unfolding_all decide
example : parseFloat? "-2.5e1" = some (-25) := by with_unfolding_all decide
example : parse "1, 2, 3" "4,5" = .error .lengthMismatch := by
  with_unfolding_all decide
example : parse "" "" = .error .empty := by with_unfolding_all decide

/-! ## The Fit Engine (spec §4.2, src/app.py lines 135-171) -/

/-- Arithmetic mean of a series (`0` on the empty list, which the program
never reaches: emptiness is rejected at parse time). -/
def mean (l : List ℚ) : ℚ :=
  l.sum / (l.length : ℚ)

/-- Centered sum of squares of X: `Σ (x_i - mean x)^2`, the denominator of
the OLS slope. -/
def sxx (x : List ℚ) : ℚ :=
  (x.map (fun xi => (xi - mean x) ^ 2)).sum

/-- Centered cross sum: `Σ (x_i - mean x) * (y_i - mean y)`. -/
def sxy (x y : List ℚ) : ℚ :=
  (List.zipWith (fun xi yi => (xi - mean x) * (yi - mean y)) x y).sum

/-- Centered sum of squares of Y. -/
def syy (y : List ℚ) : ℚ :=
  (y.map (fun yi => (yi - mean y) ^ 2)).sum

/-- Modelled from the spec: `scipy.stats.linregress` called at src/app.py
line 141 (its implementation is not part of this repository).  Per the
spec's closed-form OLS formulas (§4.2): slope `sxy/sxx`, intercept
`mean y - slope * mean x`, and the squared Pearson correlation
`sxy^2 / (sxx * syy)` (scipy returns `r` itself, which is irrational in
general; the app never uses it, so its square is modelled).  In `ℚ` the
division convention gives `0` where the float code would hit a
zero-variance divide. -/
def linregress (x y : List ℚ) : ℚ × ℚ × ℚ :=
  let slope := sxy x y / sxx x
  (slope, mean y - slope * mean x, (sxy x y) ^ 2 / (sxx x * syy y))

/-- The spec's `FitError` taxonomy as realised by the code: the only fit
error path in src/app.py is the `len(x_values) < 2` guard at line 137.
The spec's `DegenerateX` case has no counterpart in the code. -/
inductive FitError
  | insufficientPoints
deriving DecidableEq, Repr

/-- Result of a successful fit (spec §3 `FitResult`, numeric part). -/
structure FitResult where
  slope : ℚ
  intercept : ℚ
  r2 : ℚ
deriving DecidableEq, Repr

/-- The Fit Engine (spec §4.2), embedded from src/app.py lines 136-142:
reject fewer than two points, otherwise return the regression of y on x.
(At the call site the two series already have equal length.) -/
def fit (x y : List ℚ) : Except FitError FitResult :=
  if x.length < 2 then .error .insufficientPoints
  else
    let r := linregress x y
    .ok ⟨r.1, r.2.1, r.2.2⟩

/-! ## Slope-unit derivation (src/app.py lines 148-162) -/

/-- The unit vocabulary offered by the two dropdowns (src/app.py
lines 22-35). -/
def PHYSICS_UNITS : List String :=
  ["None (Dimensionless)", "Time (s)", "Length (m)", "Mass (kg)",
   "Force (N)", "Velocity (m/s)", "Acceleration (m/s²)", "Voltage (V)",
   "Current (A)", "Resistance (Ω)", "Energy (J)", "Power (W)"]

/-- Python `label.split(' ')[0]`: the text before the first space
(src/app.py lines 151-152). -/
def firstWord (s : String) : String :=
  ((splitChar ' ' s.data).headD []).asString

/-- `needle` starts the character list. -/
def leadsWith : List Char → List Char → Bool
  | [], _ => true
  | _, [] => false
  | a :: as, b :: bs => a = b && leadsWith as bs

/-- Occurrence of `needle` anywhere in the haystack. -/
def containsAux (needle : List Char) : List Char → Bool
  | [] => needle.isEmpty
  | c :: cs => leadsWith needle (c :: cs) || containsAux needle cs

/-- Python's substring test `needle in s`. -/
def containsStr (needle s : String) : Bool :=
  containsAux needle.data s.data

/-- The gradient-unit derivation of src/app.py lines 148-162: take the
first word of each axis unit label, then branch on which of them contains
the text `None`. -/
def gradUnit (x_unit_label y_unit_label : String) : String :=
  let y_unit_str := firstWord y_unit_label
  let x_unit_str := firstWord x_unit_label
  if containsStr "None" x_unit_str && containsStr "None" y_unit_str then ""
  else if containsStr "None" x_unit_str then "(" ++ y_unit_label ++ ")"
  else if containsStr "None" y_unit_str then "(1/" ++ x_unit_label ++ ")"
  else "(" ++ y_unit_str ++ "/" ++ x_unit_str ++ ")"

/-- The dimensionless sentinel of the vocabulary. -/
def dimensionlessUnit : String := "None (Dimensionless)"

/-- The slope-unit label in the words of the spec (§4.2): empty when both
units are the sentinel, the inverse of the X unit when only Y is
dimensionless, the Y unit as-is when only X is dimensionless, and
otherwise the ratio of the units' leading symbols, each case wrapped in
the display parentheses the app uses. -/
def specSlopeUnit (xu yu : String) : String :=
  if xu = dimensionlessUnit && yu = dimensionlessUnit then ""
  else if xu = dimensionlessUnit then "(" ++ yu ++ ")"
  else if yu = dimensionlessUnit then "(1/" ++ xu ++ ")"
  else "(" ++ firstWord yu ++ "/" ++ firstWord xu ++ ")"

example : gradUnit "Time (s)" "Force (N)" = "(Force/Time)" := by
  with_unfolding_all decide
example : gradUnit "None (Dimensionless)" "Force (N)" = "(Force (N))" := by
  with_unfolding_all decide

/-! ## Display formatting and the rendered outputs of `plot_data` -/

/-- Decimal digits of a natural number, most significant first, via
explicit fuel (`n` has fewer than `n + 1` digits). -/
def natDigitsAux : Nat → Nat → List Char
  | 0, _ => []
  | fuel + 1, n =>
    if n < 10 then [Char.ofNat (48 + n)]
    else natDigitsAux fuel (n / 10) ++ [Char.ofNat (48 + n % 10)]

/-- Decimal rendering of a natural number. -/
def natToStr (n : Nat) : String :=
  (natDigitsAux (n + 1) n).asString

/-- Python's `f"{v:.4f}"` on the exact rational value: round to four
decimal places and print with exactly four fractional digits.  (Python
rounds the underlying double half-to-even; `round` here rounds ties up.
The two agree away from ties, in particular on every value this
development evaluates.) -/
def fmt4 (q : ℚ) : String :=
  let n : Int := round (q * 10000)
  let m := n.natAbs
  let frac := natToStr (m % 10000)
  (if n < 0 then "-" else "") ++ natToStr (m / 10000) ++ "." ++
    (List.replicate (4 - frac.length) '0').asString ++ frac

example : fmt4 6 = "6.0000" := by with_unfolding_all decide
example : fmt4 (-7) = "-7.0000" := by with_unfolding_all decide
example : fmt4 (36 / 37) = "0.9730" := by with_unfolding_all decide

/-- A user-visible message: `st.error` or `st.info`. -/
inductive Msg
  | errorMsg (s : String)
  | infoMsg (s : String)
deriving DecidableEq, Repr

/-- src/app.py line 177. -/
def invalidInputMsg : String :=
  "Invalid input. Please ensure all values are numbers and separated by commas."

/-- src/app.py line 113. -/
def emptyDataMsg : String :=
  "Please enter data for both the X and Y axes."

/-- src/app.py line 118. -/
def mismatchMsg : String :=
  "The number of X values must match the number of Y values."

/-- src/app.py line 138. -/
def needTwoMsg : String :=
  "Need at least two data points to calculate a meaningful linear gradient."

/-- The `st.info` text of src/app.py line 171. -/
def gradientInfoMsg (g : ℚ) (unit : String) : String :=
  "**Calculated Gradient (Slope of Best-Fit Line):** $m = " ++ fmt4 g ++
    "$ " ++ unit

/-- The best-fit legend label of src/app.py line 167. -/
def bestFitLabel (g : ℚ) : String :=
  "Best-Fit Line" ++ "\n" ++ "(Gradient: " ++ fmt4 g ++ ")"

/-- The matplotlib figure contents relevant to the core: the scatter
points, the axis labels and title built from the unit labels
(src/app.py lines 122-132), and the optional best-fit overlay of
lines 144-168 (slope, intercept, legend label). -/
structure Fig where
  points : List (ℚ × ℚ)
  xlabel : String
  ylabel : String
  title : String
  fitLine : Option (ℚ × ℚ × String)
deriving DecidableEq, Repr

/-- Everything `plot_data` hands back or shows: its Python return value
`(fig | None, x_values, y_values)` plus the `st.error` / `st.info`
messages it emits along the way. -/
structure PlotOut where
  fig : Option Fig
  x_values : List ℚ
  y_values : List ℚ
  msgs : List Msg
deriving DecidableEq, Repr

/-- `plot_data` (src/app.py lines 105-178).  Parsing and validation are
the `parse` path (every error returns `(None, [], [])` with one `st.error`
message); on success a figure is built, and when `show_gradient` is set
the fit of lines 136-171 either reports the too-few-points error (the
figure is still returned, without an overlay) or draws the best-fit line
and emits the gradient info message. -/
def plot_data (x_str y_str x_unit_label y_unit_label : String)
    (show_gradient : Bool) : PlotOut :=
  match parse x_str y_str with
  | .error .nonNumeric => ⟨none, [], [], [.errorMsg invalidInputMsg]⟩
  | .error .empty => ⟨none, [], [], [.errorMsg emptyDataMsg]⟩
  | .error .lengthMismatch => ⟨none, [], [], [.errorMsg mismatchMsg]⟩
  | .ok (x_values, y_values) =>
    let fig0 : Fig :=
      { points := x_values.zip y_values
        xlabel := "X-axis (" ++ x_unit_label ++ ")"
        ylabel := "Y-axis (" ++ y_unit_label ++ ")"
        title := y_unit_label ++ " vs " ++ x_unit_label ++ " Plot"
        fitLine := none }
    if show_gradient then
      match fit x_values y_values with
      | .error .insufficientPoints =>
        ⟨some fig0, x_values, y_values, [.errorMsg needTwoMsg]⟩
      | .ok r =>
        ⟨some { fig0 with
                  fitLine := some (r.slope, r.intercept, bestFitLabel r.slope) },
         x_values, y_values,
         [.infoMsg (gradientInfoMsg r.slope (gradUnit x_unit_label y_unit_label))]⟩
    else ⟨some fig0, x_values, y_values, []⟩

/-! ## The presentation-surface state (src/app.py lines 37-45, 184-194) -/

/-- The session state the app stores across reruns: the figure (if any),
the parsed series, and the `plotted` flag. -/
structure SessionState where
  fig : Option Fig
  x_values : List ℚ
  y_values : List ℚ
  plotted : Bool
deriving DecidableEq, Repr

/-- The `plot_button` handler (src/app.py lines 184-194): reset the stored
figure, call `plot_data`, store its three results, and set `plotted` from
whether a figure came back.  Returns the new state together with the
messages `plot_data` showed; the figure rendered afterwards is the new
state's `fig` (line 193 renders only when it is not `None`). -/
def plotButtonStep (s : SessionState)
    (x_input y_input x_unit y_unit : String) : SessionState × List Msg :=
  let out := plot_data x_input y_input x_unit y_unit false
  ({ fig := out.fig, x_values := out.x_values, y_values := out.y_values,
     plotted := out.fig.isSome }, out.msgs)

/-- The Calculate Gradient handler (src/app.py lines 210-214): call
`plot_data` with the gradient requested and store only the resulting
figure (`st.session_state['fig'], _, _ = plot_data(...,
show_gradient=True)`); the other state fields are left as they were.
Returns the new state with the messages `plot_data` showed. -/
def calcGradientStep (s : SessionState)
    (x_input y_input x_unit y_unit : String) : SessionState × List Msg :=
  let out := plot_data x_input y_input x_unit y_unit true
  ({ s with fig := out.fig }, out.msgs)

example : fit [1, 2, 3, 4, 5] [1, 4, 9, 16, 25] = .ok ⟨6, -7, 180/187⟩ := by
  with_unfolding_all decide

/-! ## Helper lemmas -/

lemma parseList_none_iff (ts : List String) :
    parseList ts = none ↔ ∃ t ∈ ts, parseFloat? t = none := by
  induction ts with
  | nil => simp [parseList]
  | cons t ts ih =>
    cases hf : parseFloat? t with
    | none =>
      simp only [parseList, hf]
      exact iff_of_true trivial ⟨t, List.mem_cons_self t ts, hf⟩
    | some v =>
      cases hl : parseList ts with
      | none =>
        obtain ⟨a, ha, hn⟩ := ih.mp hl
        simp only [parseList, hf, hl]
        exact iff_of_true trivial ⟨a, List.mem_cons_of_mem t ha, hn⟩
      | some vs =>
        simp only [parseList, hf, hl]
        constructor
        · intro h; cases h
        · rintro ⟨a, ha, hn⟩
          rcases List.mem_cons.mp ha with rfl | ha'
          · rw [hf] at hn; cases hn
          · have := ih.mpr ⟨a, ha', hn⟩
            rw [hl] at this; cases this

lemma parseList_total : ∀ ts : List String,
    (∀ t ∈ ts, (parseFloat? t).isSome) →
    ∃ vs, parseList ts = some vs ∧ vs.length = ts.length := by
  intro ts
  induction ts with
  | nil => intro _; exact ⟨[], rfl, rfl⟩
  | cons t ts ih =>
    intro h
    obtain ⟨vs, hvs, hlen⟩ := ih (fun a ha => h a (List.mem_cons_of_mem t ha))
    obtain ⟨v, hv⟩ := Option.isSome_iff_exists.mp (h t (List.mem_cons_self t ts))
    refine ⟨v :: vs, ?_, by simp [hlen]⟩
    simp [parseList, hv, hvs]

lemma splitTokens_mem_ne_empty (s t : String) (h : t ∈ splitTokens s) :
    t ≠ "" := by
  have := List.of_mem_filter (p := fun t => t ≠ "") h
  simpa using this

lemma parse_nonNumeric_of_bad_token (x y : String)
    (h : (∃ t ∈ splitTokens x, parseFloat? t = none) ∨
         (∃ t ∈ splitTokens y, parseFloat? t = none)) :
    parse x y = .error .nonNumeric := by
  cases hx : parseSeries x with
  | none => simp [parse, hx]
  | some xv =>
    cases hy : parseSeries y with
    | none => simp [parse, hx, hy]
    | some yv =>
      exfalso
      rcases h with h | h
      · have hn : parseSeries x = none := (parseList_none_iff _).mpr h
        rw [hx] at hn; cases hn
      · have hn : parseSeries y = none := (parseList_none_iff _).mpr h
        rw [hy] at hn; cases hn

lemma parse_empty_of_no_tokens (x y : String)
    (hx : ∀ t ∈ splitTokens x, (parseFloat? t).isSome)
    (hy : ∀ t ∈ splitTokens y, (parseFloat? t).isSome)
    (h : splitTokens x = [] ∨ splitTokens y = []) :
    parse x y = .error .empty := by
  obtain ⟨xv, hxv, hxl⟩ := parseList_total _ hx
  obtain ⟨yv, hyv, hyl⟩ := parseList_total _ hy
  have hcond : (xv.isEmpty || yv.isEmpty) = true := by
    rcases h with h | h
    · have : xv = [] := List.length_eq_zero.mp (by rw [hxl, h]; rfl)
      simp [this]
    · have : yv = [] := List.length_eq_zero.mp (by rw [hyl, h]; rfl)
      simp [this]
  simp [parse, parseSeries, hxv, hyv, hcond]

lemma parse_mismatch_of_lengths (x y : String)
    (hx : ∀ t ∈ splitTokens x, (parseFloat? t).isSome)
    (hy : ∀ t ∈ splitTokens y, (parseFloat? t).isSome)
    (hnex : splitTokens x ≠ []) (hney : splitTokens y ≠ [])
    (hne : (splitTokens x).length ≠ (splitTokens y).length) :
    parse x y = .error .lengthMismatch := by
  obtain ⟨xv, hxv, hxl⟩ := parseList_total _ hx
  obtain ⟨yv, hyv, hyl⟩ := parseList_total _ hy
  have hxe : xv.isEmpty = false := by
    have hxne : xv ≠ [] := by
      intro hh
      rw [hh] at hxl
      exact hnex (List.length_eq_zero.mp (by simpa using hxl.symm))
    simpa [List.isEmpty_iff] using hxne
  have hye : yv.isEmpty = false := by
    have hyne : yv ≠ [] := by
      intro hh
      rw [hh] at hyl
      exact hney (List.length_eq_zero.mp (by simpa using hyl.symm))
    simpa [List.isEmpty_iff] using hyne
  have hlen : xv.length ≠ yv.length := by rw [hxl, hyl]; exact hne
  simp [parse, parseSeries, hxv, hyv, hxe, hye, hlen]

lemma parse_ok_of_well_formed (x y : String)
    (hx : ∀ t ∈ splitTokens x, (parseFloat? t).isSome)
    (hy : ∀ t ∈ splitTokens y, (parseFloat? t).isSome)
    (hnex : splitTokens x ≠ []) (hney : splitTokens y ≠ [])
    (hlen : (splitTokens x).length = (splitTokens y).length) :
    ∃ xv yv, parse x y = .ok (xv, yv) ∧
      xv.length = (splitTokens x).length ∧
      yv.length = (splitTokens y).length := by
  obtain ⟨xv, hxv, hxl⟩ := parseList_total _ hx
  obtain ⟨yv, hyv, hyl⟩ := parseList_total _ hy
  have hxe : xv.isEmpty = false := by
    have : xv ≠ [] := by
      intro hh
      rw [hh] at hxl
      exact hnex (List.length_eq_zero.mp hxl.symm)
    simpa [List.isEmpty_iff] using this
  have hye : yv.isEmpty = false := by
    have : yv ≠ [] := by
      intro hh
      rw [hh] at hyl
      exact hney (List.length_eq_zero.mp hyl.symm)
    simpa [List.isEmpty_iff] using this
  have hll : xv.length = yv.length := by rw [hxl, hyl, hlen]
  refine ⟨xv, yv, ?_, hxl, hyl⟩
  simp [parse, parseSeries, hxv, hyv, hxe, hye, hll]

lemma mean_replicate (c : ℚ) (n : ℕ) (hn : n ≠ 0) :
    mean (List.replicate n c) = c := by
  have hq : (n : ℚ) ≠ 0 := Nat.cast_ne_zero.mpr hn
  rw [mean, List.sum_replicate, List.length_replicate, nsmul_eq_mul,
    mul_div_cancel_left₀ _ hq]

lemma sxx_replicate (c : ℚ) (n : ℕ) : sxx (List.replicate n c) = 0 := by
  rcases Nat.eq_zero_or_pos n with h | h
  · subst h; simp [sxx]
  · have hm := mean_replicate c n (Nat.pos_iff_ne_zero.mp h)
    simp [sxx, hm, List.map_replicate]

lemma zipWith_replicate_sum_zero (g : ℚ → ℚ → ℚ) (c : ℚ)
    (hg : ∀ b, g c b = 0) : ∀ (n : ℕ) (y : List ℚ),
    (List.zipWith g (List.replicate n c) y).sum = 0
  | 0, _ => by simp
  | _ + 1, [] => by simp
  | n + 1, b :: y => by
    rw [List.replicate_succ, List.zipWith_cons_cons, List.sum_cons, hg b,
      zipWith_replicate_sum_zero g c hg n y, add_zero]

lemma sxy_replicate (c : ℚ) (n : ℕ) (y : List ℚ) (hn : n ≠ 0) :
    sxy (List.replicate n c) y = 0 := by
  have hm := mean_replicate c n hn
  rw [sxy]
  simp only [hm]
  exact zipWith_replicate_sum_zero _ c (fun b => by ring) n y

/-! ## Claim theorems -/

/-- C1 (amended): for every pair of equal-length numeric series of length
at least 2, the fit computes the ordinary least-squares slope
`Σ((x_i − mean_x)(y_i − mean_y)) / Σ((x_i − mean_x)²)` and intercept
`mean_y − slope·mean_x` of y regressed on x; on x = [1,2,3,4,5],
y = [1,4,9,16,25] it returns slope exactly 6 and intercept exactly −7
(displayed to 4 decimal places as 6.0000 and -7.0000) — not −4.8, as the
counterexample theorem shows. -/
theorem fit_computes_ols_slope_intercept (x y : List ℚ)
    (hlen : x.length = y.length) (h2 : 2 ≤ x.length) :
    fit x y = .ok ⟨sxy x y / sxx x,
      mean y - sxy x y / sxx x * mean x,
      sxy x y ^ 2 / (sxx x * syy y)⟩ ∧
    fit [1, 2, 3, 4, 5] [1, 4, 9, 16, 25] = .ok ⟨6, -7, 180 / 187⟩ ∧
    fmt4 6 = "6.0000" ∧ fmt4 (-7) = "-7.0000" := by
  refine ⟨?_, by with_unfolding_all decide, by with_unfolding_all decide,
    by with_unfolding_all decide⟩
  have hn : ¬ (x.length < 2) := by omega
  simp [fit, linregress, hn]

/-- C1 witness: the OLS theorem applied at the example series. -/
theorem fit_computes_ols_slope_intercept_witness :
    fit [1, 2, 3, 4, 5] [1, 4, 9, 16, 25] =
      .ok ⟨sxy [1, 2, 3, 4, 5] [1, 4, 9, 16, 25] / sxx [1, 2, 3, 4, 5],
        mean [1, 4, 9, 16, 25] -
          sxy [1, 2, 3, 4, 5] [1, 4, 9, 16, 25] / sxx [1, 2, 3, 4, 5] *
            mean [1, 2, 3, 4, 5],
        sxy [1, 2, 3, 4, 5] [1, 4, 9, 16, 25] ^ 2 /
          (sxx [1, 2, 3, 4, 5] * syy [1, 4, 9, 16, 25])⟩ :=
  (fit_computes_ols_slope_intercept [1, 2, 3, 4, 5] [1, 4, 9, 16, 25] rfl
    (by decide)).1

/-- C1 counterexample: on the spec's own example the intercept is exactly
−7, which differs from the claimed ≈ −4.8 by far more than 10⁻⁴, and its
4-decimal display is "-7.0000", not "-4.8000". -/
theorem fit_example_intercept_is_minus_seven :
    fit [1, 2, 3, 4, 5] [1, 4, 9, 16, 25] = .ok ⟨6, -7, 180 / 187⟩ ∧
    ¬ |(-7 : ℚ) - (-24 / 5)| < 1 / 10000 ∧
    fmt4 (-7) ≠ "-4.8000" := by
  with_unfolding_all decide

/-- C2 (amended): on every pair of equal-length series of length at least
2 in which all X values are identical, `fit` does not fail at all — the
code defines no `DegenerateX` error (`FitError` has only
`insufficientPoints`) and has no zero-variance guard: the computation
reaches the slope division with the divisor `Σ((x_i − mean_x)²) = 0`
(under the rational division-by-zero convention the slope comes out 0;
the float code divides by zero unguarded). -/
theorem fit_degenerate_x_unguarded (c : ℚ) (n : ℕ) (y : List ℚ)
    (h2 : 2 ≤ n) (hlen : y.length = n) :
    sxx (List.replicate n c) = 0 ∧
    fit (List.replicate n c) y = .ok ⟨0, mean y, 0⟩ := by
  have hn : n ≠ 0 := by omega
  refine ⟨sxx_replicate c n, ?_⟩
  have hlt : ¬ ((List.replicate n c).length < 2) := by
    rw [List.length_replicate]; omega
  simp [fit, linregress, hlt, sxx_replicate, sxy_replicate c n y hn]
  omega

/-- C2 witness: the unguarded-degenerate theorem at x = [1,1], y = [0,1]. -/
theorem fit_degenerate_x_unguarded_witness :
    sxx (List.replicate 2 (1 : ℚ)) = 0 ∧
    fit (List.replicate 2 (1 : ℚ)) [0, 1] = .ok ⟨0, mean [0, 1], 0⟩ :=
  fit_degenerate_x_unguarded 1 2 [0, 1] (by decide) rfl

/-- C2 counterexample: on x = [1,1], y = [0,1] — equal length 2, all X
identical — `fit` succeeds (no typed error of any kind) even though the
slope denominator `sxx` is 0, refuting the claim that it fails with
`DegenerateX`. -/
theorem fit_identical_x_returns_ok :
    fit [1, 1] [(0 : ℚ), 1] = .ok ⟨0, 1 / 2, 0⟩ ∧ sxx [(1 : ℚ), 1] = 0 := by
  with_unfolding_all decide

/-- C3: for every pair of axis unit labels drawn from the fixed
vocabulary, the slope unit label computed with the fit is: empty when
both units are the dimensionless sentinel; the inverse of the X unit when
only the Y unit is dimensionless; the Y unit as-is when only the X unit
is dimensionless; and otherwise the "Y-unit per X-unit" ratio of the
units' leading symbols, formatted for display. -/
theorem grad_unit_matches_spec : ∀ xu ∈ PHYSICS_UNITS, ∀ yu ∈ PHYSICS_UNITS,
    gradUnit xu yu = specSlopeUnit xu yu := by
  with_unfolding_all decide

/-- C3 witness: the unit-label theorem at Time (s) and Force (N). -/
theorem grad_unit_matches_spec_witness :
    "Time (s)" ∈ PHYSICS_UNITS ∧ "Force (N)" ∈ PHYSICS_UNITS ∧
    gradUnit "Time (s)" "Force (N)" = specSlopeUnit "Time (s)" "Force (N)" :=
  ⟨by decide, by decide,
    grad_unit_matches_spec "Time (s)" (by decide) "Force (N)" (by decide)⟩

/-- C4 (amended): every failure is reported as a single user-visible error
message and no partial output is produced, but the stored state is not
left unchanged.  In detail: (i) whenever `plot_data` returns no figure
(exactly the parse failures, on either button), its messages are one
`st.error`; (ii) on a parse failure the `plot_button` handler stores the
`None` figure and clears `plotted`, discarding the previously rendered
plot rather than retaining it; (iii) when the input parses but the fit
precondition fails (fewer than 2 points with the gradient requested), the
insufficient-points error is the single message, the figure produced is
the complete scatter with no fit overlay (no partial fit output), and the
Calculate Gradient handler stores that figure in place of the previous
one. -/
theorem parse_error_reported_and_plot_cleared (s : SessionState)
    (x y xu yu : String) :
    (∀ g : Bool, (plot_data x y xu yu g).fig = none →
      ∃ m, (plot_data x y xu yu g).msgs = [Msg.errorMsg m]) ∧
    ((plot_data x y xu yu false).fig = none →
      (plotButtonStep s x y xu yu).1.fig = none ∧
      (plotButtonStep s x y xu yu).1.plotted = false) ∧
    (∀ xv yv, parse x y = .ok (xv, yv) → xv.length < 2 →
      (plot_data x y xu yu true).msgs = [Msg.errorMsg needTwoMsg] ∧
      (∃ f, (plot_data x y xu yu true).fig = some f ∧ f.fitLine = none) ∧
      (calcGradientStep s x y xu yu).1.fig =
        (plot_data x y xu yu true).fig) := by
  refine ⟨?_, ?_, ?_⟩
  · intro g h
    cases hp : parse x y with
    | error e => cases e <;> simp [plot_data, hp]
    | ok v =>
      obtain ⟨xv, yv⟩ := v
      exfalso
      cases hf : fit xv yv with
      | error e =>
        cases e
        cases g <;> simp [plot_data, hp, hf] at h
      | ok r =>
        cases g <;> simp [plot_data, hp, hf] at h
  · intro h
    exact ⟨by simp [plotButtonStep, h], by simp [plotButtonStep, h]⟩
  · intro xv yv hp hlt
    have hf : fit xv yv = .error .insufficientPoints := by simp [fit, hlt]
    refine ⟨by simp [plot_data, hp, hf], ?_, by simp [calcGradientStep]⟩
    refine ⟨{ points := xv.zip yv,
              xlabel := "X-axis (" ++ xu ++ ")",
              ylabel := "Y-axis (" ++ yu ++ ")",
              title := yu ++ " vs " ++ xu ++ " Plot",
              fitLine := none }, ?_, rfl⟩
    simp [plot_data, hp, hf]

/-- C4 witness: the error-path theorem applied on the non-numeric input
"a" (parse failure, plot button) and on the single-point pair "1"/"2"
(fit-precondition failure, gradient button). -/
theorem parse_error_reported_and_plot_cleared_witness :
    (∃ m, (plot_data "a" "1" "Time (s)" "Force (N)" false).msgs =
      [Msg.errorMsg m]) ∧
    ((plotButtonStep ⟨none, [], [], false⟩ "a" "1" "Time (s)"
        "Force (N)").1.fig = none ∧
     (plotButtonStep ⟨none, [], [], false⟩ "a" "1" "Time (s)"
        "Force (N)").1.plotted = false) ∧
    ((plot_data "1" "2" "Time (s)" "Force (N)" true).msgs =
        [Msg.errorMsg needTwoMsg] ∧
     (∃ f, (plot_data "1" "2" "Time (s)" "Force (N)" true).fig = some f ∧
        f.fitLine = none) ∧
     (calcGradientStep ⟨none, [], [], false⟩ "1" "2" "Time (s)"
        "Force (N)").1.fig =
       (plot_data "1" "2" "Time (s)" "Force (N)" true).fig) :=
  ⟨(parse_error_reported_and_plot_cleared ⟨none, [], [], false⟩ "a" "1"
      "Time (s)" "Force (N)").1 false (by with_unfolding_all decide),
   (parse_error_reported_and_plot_cleared ⟨none, [], [], false⟩ "a" "1"
      "Time (s)" "Force (N)").2.1 (by with_unfolding_all decide),
   (parse_error_reported_and_plot_cleared ⟨none, [], [], false⟩ "1" "2"
      "Time (s)" "Force (N)").2.2 [1] [2] (by with_unfolding_all decide)
      (by decide)⟩

/-- C4 counterexample: after a successful plot of "1, 2" against "3, 4",
pressing Plot Data with the bad input "a" does change the system state —
the stored figure becomes `None`, so the previously rendered plot is
replaced (dropped), refuting "the system state is unchanged". -/
theorem error_replaces_previous_plot :
    ((plotButtonStep ⟨none, [], [], false⟩ "1, 2" "3, 4" "Time (s)"
        "Force (N)").1).fig.isSome = true ∧
    (plotButtonStep
        (plotButtonStep ⟨none, [], [], false⟩ "1, 2" "3, 4" "Time (s)"
          "Force (N)").1
        "a" "1" "Time (s)" "Force (N)").1 ≠
      (plotButtonStep ⟨none, [], [], false⟩ "1, 2" "3, 4" "Time (s)"
        "Force (N)").1 ∧
    (plotButtonStep
        (plotButtonStep ⟨none, [], [], false⟩ "1, 2" "3, 4" "Time (s)"
          "Force (N)").1
        "a" "1" "Time (s)" "Force (N)").1.fig = none := by
  with_unfolding_all decide

/-- C5 (amended): for every successful fit computation, the app displays
one numeric value — the slope — formatted to 4 decimal places (in the
info message and again in the best-fit legend label), together with the
textual slope-unit annotation; the intercept and the correlation are
computed by the regression but never displayed. -/
theorem fit_display_slope_only (x y xu yu : String) (xv yv : List ℚ)
    (r : FitResult) (hp : parse x y = .ok (xv, yv))
    (hf : fit xv yv = .ok r) :
    (plot_data x y xu yu true).msgs =
      [Msg.infoMsg (gradientInfoMsg r.slope (gradUnit xu yu))] ∧
    (plot_data x y xu yu true).fig =
      some { points := xv.zip yv,
             xlabel := "X-axis (" ++ xu ++ ")",
             ylabel := "Y-axis (" ++ yu ++ ")",
             title := yu ++ " vs " ++ xu ++ " Plot",
             fitLine := some (r.slope, r.intercept, bestFitLabel r.slope) } := by
  constructor <;> simp [plot_data, hp, hf]

/-- C5 witness: the slope-only display theorem on the fit of "1, 2"
against "3, 5" (slope 2, intercept 1, r² = 1). -/
theorem fit_display_slope_only_witness :
    (plot_data "1, 2" "3, 5" "Time (s)" "Force (N)" true).msgs =
      [Msg.infoMsg (gradientInfoMsg (2 : ℚ) (gradUnit "Time (s)" "Force (N)"))] ∧
    (plot_data "1, 2" "3, 5" "Time (s)" "Force (N)" true).fig =
      some { points := [((1 : ℚ), (3 : ℚ)), (2, 5)],
             xlabel := "X-axis (Time (s))",
             ylabel := "Y-axis (Force (N))",
             title := "Force (N) vs Time (s) Plot",
             fitLine := some (2, 1, bestFitLabel 2) } :=
  fit_display_slope_only "1, 2" "3, 5" "Time (s)" "Force (N)" [1, 2] [3, 5]
    ⟨2, 1, 1⟩ (by with_unfolding_all decide) (by with_unfolding_all decide)

/-- C5 counterexample: on the example fit the complete display output is
the gradient info message and the legend label; neither contains the
intercept formatted to 4 decimal places ("-7.0000") nor R² formatted to 4
decimal places ("0.9626"), refuting the claim that three display values
are produced. -/
theorem fit_display_omits_intercept_and_r2 :
    (plot_data "1, 2, 3, 4, 5" "1, 4, 9, 16, 25" "Time (s)" "Force (N)"
        true).msgs =
      [Msg.infoMsg
        "**Calculated Gradient (Slope of Best-Fit Line):** $m = 6.0000$ (Force/Time)"] ∧
    ((plot_data "1, 2, 3, 4, 5" "1, 4, 9, 16, 25" "Time (s)" "Force (N)"
        true).fig.map Fig.fitLine) =
      some (some (6, -7, "Best-Fit Line\n(Gradient: 6.0000)")) ∧
    fmt4 (-7) = "-7.0000" ∧ fmt4 (180 / 187) = "0.9626" ∧
    containsStr "-7.0000"
      "**Calculated Gradient (Slope of Best-Fit Line):** $m = 6.0000$ (Force/Time)" = false ∧
    containsStr "0.9626"
      "**Calculated Gradient (Slope of Best-Fit Line):** $m = 6.0000$ (Force/Time)" = false ∧
    containsStr "-7.0000" "Best-Fit Line\n(Gradient: 6.0000)" = false ∧
    containsStr "0.9626" "Best-Fit Line\n(Gradient: 6.0000)" = false := by
  with_unfolding_all decide

/-- C6: parse fails with NonNumeric whenever some token of either input is
not a valid number; given all tokens numeric, with Empty when either token
list is empty; given all tokens numeric and both lists nonempty, with
LengthMismatch when the counts differ; and on the three concrete examples
of the spec it fails with NonNumeric, Empty and LengthMismatch
respectively. -/
theorem parse_error_taxonomy :
    (∀ x y : String,
      ((∃ t ∈ splitTokens x, parseFloat? t = none) ∨
       (∃ t ∈ splitTokens y, parseFloat? t = none)) →
      parse x y = .error .nonNumeric) ∧
    (∀ x y : String,
      (∀ t ∈ splitTokens x, (parseFloat? t).isSome) →
      (∀ t ∈ splitTokens y, (parseFloat? t).isSome) →
      (splitTokens x = [] ∨ splitTokens y = []) →
      parse x y = .error .empty) ∧
    (∀ x y : String,
      (∀ t ∈ splitTokens x, (parseFloat? t).isSome) →
      (∀ t ∈ splitTokens y, (parseFloat? t).isSome) →
      splitTokens x ≠ [] → splitTokens y ≠ [] →
      (splitTokens x).length ≠ (splitTokens y).length →
      parse x y = .error .lengthMismatch) ∧
    parse "1,a,3" "1,2,3" = .error .nonNumeric ∧
    parse "" "" = .error .empty ∧
    parse "1, 2, 3" "4,5" = .error .lengthMismatch := by
  refine ⟨parse_nonNumeric_of_bad_token, parse_empty_of_no_tokens,
    parse_mismatch_of_lengths, ?_, ?_, ?_⟩ <;> with_unfolding_all decide

/-- C6 witness: the taxonomy theorem's three conditional parts applied at
concrete inputs. -/
theorem parse_error_taxonomy_witness :
    parse "x" "1" = .error .nonNumeric ∧
    parse " , " "2" = .error .empty ∧
    parse "1,2" "3" = .error .lengthMismatch :=
  ⟨parse_error_taxonomy.1 "x" "1" (Or.inl (by with_unfolding_all decide)),
   parse_error_taxonomy.2.1 " , " "2" (by with_unfolding_all decide)
     (by with_unfolding_all decide) (Or.inl (by with_unfolding_all decide)),
   parse_error_taxonomy.2.2.1 "1,2" "3" (by with_unfolding_all decide)
     (by with_unfolding_all decide) (by with_unfolding_all decide)
     (by with_unfolding_all decide) (by with_unfolding_all decide)⟩

/-- C7: for every pair of equal-length numeric series in which either
series has fewer than 2 points, the fit fails with InsufficientPoints (no
FitResult, hence no slope, is produced). -/
theorem fit_insufficient_points (x y : List ℚ) (hlen : x.length = y.length)
    (h : x.length < 2 ∨ y.length < 2) :
    fit x y = .error .insufficientPoints := by
  have hx : x.length < 2 := by
    rcases h with h | h
    · exact h
    · omega
  simp [fit, hx]

/-- C7 witness: the insufficient-points theorem on a single-point pair. -/
theorem fit_insufficient_points_witness :
    fit [(1 : ℚ)] [(2 : ℚ)] = .error .insufficientPoints :=
  fit_insufficient_points [1] [2] rfl (Or.inl (by decide))

/-- C8: for every pair of well-formed equal-length numeric input strings,
parse returns series whose lengths equal the numbers of comma-separated
non-empty tokens; tokens are never empty after stripping, and a
concrete input with empty and whitespace-only entries parses to the three
numbers of its three non-empty tokens rather than erroring. -/
theorem parse_length_matches_tokens (x y : String)
    (hx : ∀ t ∈ splitTokens x, (parseFloat? t).isSome)
    (hy : ∀ t ∈ splitTokens y, (parseFloat? t).isSome)
    (hnex : splitTokens x ≠ []) (hney : splitTokens y ≠ [])
    (hlen : (splitTokens x).length = (splitTokens y).length) :
    (∃ xv yv, parse x y = .ok (xv, yv) ∧
      xv.length = (splitTokens x).length ∧
      yv.length = (splitTokens y).length) ∧
    (∀ s : String, ∀ t ∈ splitTokens s, t ≠ "") ∧
    parseSeries "1,, 2 ,   ,3" = some [1, 2, 3] ∧
    (splitTokens "1,, 2 ,   ,3").length = 3 := by
  refine ⟨parse_ok_of_well_formed x y hx hy hnex hney hlen,
    fun s t ht => splitTokens_mem_ne_empty s t ht,
    by with_unfolding_all decide, by with_unfolding_all decide⟩

/-- C8 witness: the token-length theorem on "1, 2, 3" and "4, 5, 6". -/
theorem parse_length_matches_tokens_witness :
    ∃ xv yv, parse "1, 2, 3" "4, 5, 6" = .ok (xv, yv) ∧
      xv.length = (splitTokens "1, 2, 3").length ∧
      yv.length = (splitTokens "4, 5, 6").length :=
  (parse_length_matches_tokens "1, 2, 3" "4, 5, 6"
    (by with_unfolding_all decide) (by with_unfolding_all decide)
    (by with_unfolding_all decide) (by with_unfolding_all decide)
    (by with_unfolding_all decide)).1

/-- C9: parse followed by fit is deterministic and stateless — the
`plot_button` handler's result does not depend on the prior session state
at all, and every core function returns identical results on identical
inputs (each is a pure function of its arguments; no randomness, ordering
dependence, or carried state exists in the model, which is total and
deterministic by construction). -/
theorem pipeline_stateless_deterministic :
    (∀ (s₁ s₂ : SessionState) (x y xu yu : String),
      plotButtonStep s₁ x y xu yu = plotButtonStep s₂ x y xu yu) ∧
    (∀ (x y xu yu : String) (g : Bool),
      plot_data x y xu yu g = plot_data x y xu yu g) ∧
    (∀ x y : String, parse x y = parse x y) ∧
    (∀ x y : List ℚ, fit x y = fit x y) :=
  ⟨fun _ _ _ _ _ _ => rfl, fun _ _ _ _ _ => rfl, fun _ _ => rfl,
    fun _ _ => rfl⟩

/-- C10: token conversion happens before the emptiness and length checks,
so NonNumeric takes precedence: whenever some token of either input is
non-numeric, parse fails with NonNumeric — in particular x = "a" with
y = "" fails with NonNumeric although y's token list is empty. -/
theorem non_numeric_takes_precedence (x y : String)
    (h : (∃ t ∈ splitTokens x, parseFloat? t = none) ∨
         (∃ t ∈ splitTokens y, parseFloat? t = none)) :
    parse x y = .error .nonNumeric ∧
    parse "a" "" = .error .nonNumeric ∧
    splitTokens "" = [] :=
  ⟨parse_nonNumeric_of_bad_token x y h, by with_unfolding_all decide,
    by with_unfolding_all decide⟩

/-- C10 witness: the precedence theorem at x = "a", y = "". -/
theorem non_numeric_takes_precedence_witness :
    parse "a" "" = .error .nonNumeric ∧
    parse "a" "" = .error .nonNumeric ∧
    splitTokens "" = [] :=
  non_numeric_takes_precedence "a" "" (Or.inl (by with_unfolding_all decide))

end Graphyscs
